import Mathlib

/-!
Shallow embedding of the configuration core of the `indiana_bones`
animatronic-skull firmware (src/config.h, src/config.cpp): the channel
registry tables, the movement-envelope records and the bounds-validator
predicates, together with proofs of the specified properties.

Machine-integer mapping: `uint8_t` channel identifiers and the unsigned
`uint16_t`/`uint32_t` position and duration values are embedded as `Nat`
(no arithmetic in the code can overflow or wrap; claims about wraparound
carry explicit side conditions), `int16_t` eye offsets as `Int`, and the
`float` movementIntensity field — a stored literal that the code never
computes with — as `ℚ`.
-/

namespace IndianaBones

-- ===========================================================================
-- Data model (src/config.h)
-- ===========================================================================

/-- `struct ServoRange` (src/config.h lines 88–93): channel identifier,
unsigned position bounds and home position. -/
structure ServoRange where
  channel : Nat
  min : Nat
  max : Nat
  home : Nat
deriving DecidableEq

/-- `struct ServoMotionConfig` (src/config.h lines 62–66): channel
identifier, speed and acceleration (0 = unlimited). -/
structure ServoMotionConfig where
  channel : Nat
  speed : Nat
  acceleration : Nat
deriving DecidableEq

/-- `struct DynamicModeConfig` (src/config.h lines 110–116). -/
structure DynamicModeConfig where
  minMovementInterval : Nat
  maxMovementInterval : Nat
  movementIntensity : ℚ
  minHoldDuration : Nat
  maxHoldDuration : Nat

-- Servo channel assignments (src/config.h lines 14–16)
def SKULL_PAN_CHANNEL : Nat := 0
def SKULL_NOD_CHANNEL : Nat := 1
def SKULL_JAW_CHANNEL : Nat := 2

-- Servo position constants (src/config.h lines 23–34)
def PAN_LEFT : Nat := 4416
def PAN_CENTER : Nat := 6000
def PAN_RIGHT : Nat := 7232
def NOD_DOWN : Nat := 4992
def NOD_CENTER : Nat := 4600
def NOD_UP : Nat := 4224
def JAW_CLOSED : Nat := 5888
def JAW_OPEN : Nat := 6528

-- Talking-mode timing constants (src/config.h lines 126–129)
def TALK_SEGMENT_DURATION_MIN_MS : Nat := 200
def TALK_SEGMENT_DURATION_MAX_MS : Nat := 1500
def TALK_PAUSE_DURATION_MIN_MS : Nat := 100
def TALK_PAUSE_DURATION_MAX_MS : Nat := 500

-- Default animation durations (src/config.h lines 147–150)
def DEFAULT_EYE_ANIMATION_DURATION : Nat := 500
def DEFAULT_BLINK_CLOSE_DURATION : Nat := 150
def DEFAULT_BLINK_PAUSE_DURATION : Nat := 100
def DEFAULT_BLINK_OPEN_DURATION : Nat := 150

def NUM_SERVOS : Nat := 3
def NUM_SERVO_MOTION_CONFIGS : Nat := 3

-- ===========================================================================
-- Literal tables (src/config.cpp lines 8–34)
-- ===========================================================================

/-- `SERVO_MOTION_CONFIGS[]` (src/config.cpp lines 8–12). -/
def SERVO_MOTION_CONFIGS : List ServoMotionConfig :=
  [ ⟨SKULL_PAN_CHANNEL, 60, 30⟩,
    ⟨SKULL_NOD_CHANNEL, 50, 25⟩,
    ⟨SKULL_JAW_CHANNEL, 0, 100⟩ ]

/-- `SERVO_RANGES[]` (src/config.cpp lines 14–18). -/
def SERVO_RANGES : List ServoRange :=
  [ ⟨SKULL_PAN_CHANNEL, PAN_LEFT, PAN_RIGHT, PAN_CENTER⟩,
    ⟨SKULL_NOD_CHANNEL, NOD_UP, NOD_DOWN, NOD_CENTER⟩,
    ⟨SKULL_JAW_CHANNEL, JAW_CLOSED, JAW_OPEN, JAW_CLOSED⟩ ]

/-- `DEFAULT_DYNAMIC_CONFIG` (src/config.cpp lines 20–26). -/
def DEFAULT_DYNAMIC_CONFIG : DynamicModeConfig :=
  ⟨1000, 4000, (7 : ℚ) / 10, 500, 2000⟩

/-- `TALKING_DYNAMIC_CONFIG` (src/config.cpp lines 28–34). -/
def TALKING_DYNAMIC_CONFIG : DynamicModeConfig :=
  ⟨2000, 5000, (3 : ℚ) / 10, 500, 1500⟩

-- ===========================================================================
-- Registry lookups (src/config.cpp lines 66–84)
-- ===========================================================================

/-- The linear scan of `getServoRange`: walk the table in order and return
the first record whose channel field equals the query (the C++ `for` loop
over indices 0..NUM_SERVOS-1 visits the entries in exactly this order). -/
def scanRanges (channel : Nat) : List ServoRange → Option ServoRange
  | [] => none
  | r :: rest => if r.channel == channel then some r else scanRanges channel rest

/-- The linear scan of `getServoMotionConfig`, same shape as `scanRanges`. -/
def scanMotionConfigs (channel : Nat) : List ServoMotionConfig → Option ServoMotionConfig
  | [] => none
  | r :: rest => if r.channel == channel then some r else scanMotionConfigs channel rest

/-- `getServoRange` (src/config.cpp lines 66–74): first match in
`SERVO_RANGES`, or `none` ("nullptr") when the channel is not found. -/
def getServoRange (channel : Nat) : Option ServoRange :=
  scanRanges channel SERVO_RANGES

/-- `getServoMotionConfig` (src/config.cpp lines 76–84): first match in
`SERVO_MOTION_CONFIGS`, or `none` when the channel is not found. -/
def getServoMotionConfig (channel : Nat) : Option ServoMotionConfig :=
  scanMotionConfigs channel SERVO_MOTION_CONFIGS

-- ===========================================================================
-- Validators (src/config.cpp lines 40–64)
-- ===========================================================================

/-- `validateServoPosition` (src/config.cpp lines 40–47). -/
def validateServoPosition (channel : Nat) (position : Nat) : Bool :=
  match getServoRange channel with
  | none => false  -- Unknown channel
  | some range => position ≥ range.min && position ≤ range.max

/-- `validateEyePosition` (src/config.cpp lines 49–56). -/
def validateEyePosition (h_offset v_offset : Int) : Bool :=
  let MAX_H_OFFSET : Int := 60
  let MAX_V_OFFSET : Int := 30
  h_offset ≥ -MAX_H_OFFSET && h_offset ≤ MAX_H_OFFSET &&
    v_offset ≥ -MAX_V_OFFSET && v_offset ≤ MAX_V_OFFSET

/-- `validateTiming` (src/config.cpp lines 58–64). -/
def validateTiming (duration_ms : Nat) : Bool :=
  let MIN_DURATION_MS : Nat := 10
  let MAX_DURATION_MS : Nat := 30000
  duration_ms ≥ MIN_DURATION_MS && duration_ms ≤ MAX_DURATION_MS

-- ===========================================================================
-- Helper lemmas about the linear scans
-- ===========================================================================

/-- The range scan is exactly a first-match search over the list. -/
theorem scanRanges_eq_find (c : Nat) (l : List ServoRange) :
    scanRanges c l = l.find? (fun r => r.channel == c) := by
  induction l with
  | nil => rfl
  | cons r rest ih =>
    simp only [scanRanges, List.find?]
    by_cases h : r.channel == c
    · simp [h]
    · simp [h, ih]

/-- The motion-config scan is exactly a first-match search over the list. -/
theorem scanMotionConfigs_eq_find (c : Nat) (l : List ServoMotionConfig) :
    scanMotionConfigs c l = l.find? (fun r => r.channel == c) := by
  induction l with
  | nil => rfl
  | cons r rest ih =>
    simp only [scanMotionConfigs, List.find?]
    by_cases h : r.channel == c
    · simp [h]
    · simp [h, ih]

/-- Concrete characterization of `getServoRange` on the three-entry table. -/
theorem getServoRange_cases (c : Nat) :
    getServoRange c =
      if c = 0 then some ⟨0, 4416, 7232, 6000⟩
      else if c = 1 then some ⟨1, 4224, 4992, 4600⟩
      else if c = 2 then some ⟨2, 5888, 6528, 5888⟩
      else none := by
  by_cases h0 : c = 0
  · subst h0; rfl
  · by_cases h1 : c = 1
    · subst h1; rfl
    · by_cases h2 : c = 2
      · subst h2; rfl
      · have e0 : ((0 : Nat) == c) = false := beq_eq_false_iff_ne.mpr (Ne.symm h0)
        have e1 : ((1 : Nat) == c) = false := beq_eq_false_iff_ne.mpr (Ne.symm h1)
        have e2 : ((2 : Nat) == c) = false := beq_eq_false_iff_ne.mpr (Ne.symm h2)
        simp only [getServoRange, scanRanges, SERVO_RANGES,
          SKULL_PAN_CHANNEL, SKULL_NOD_CHANNEL, SKULL_JAW_CHANNEL,
          PAN_LEFT, PAN_RIGHT, PAN_CENTER, NOD_UP, NOD_DOWN, NOD_CENTER,
          JAW_CLOSED, JAW_OPEN, e0, e1, e2, if_false, Bool.false_eq_true]
        rw [if_neg h0, if_neg h1, if_neg h2]

/-- Concrete characterization of `getServoMotionConfig` on its table. -/
theorem getServoMotionConfig_cases (c : Nat) :
    getServoMotionConfig c =
      if c = 0 then some ⟨0, 60, 30⟩
      else if c = 1 then some ⟨1, 50, 25⟩
      else if c = 2 then some ⟨2, 0, 100⟩
      else none := by
  by_cases h0 : c = 0
  · subst h0; rfl
  · by_cases h1 : c = 1
    · subst h1; rfl
    · by_cases h2 : c = 2
      · subst h2; rfl
      · have e0 : ((0 : Nat) == c) = false := beq_eq_false_iff_ne.mpr (Ne.symm h0)
        have e1 : ((1 : Nat) == c) = false := beq_eq_false_iff_ne.mpr (Ne.symm h1)
        have e2 : ((2 : Nat) == c) = false := beq_eq_false_iff_ne.mpr (Ne.symm h2)
        simp only [getServoMotionConfig, scanMotionConfigs, SERVO_MOTION_CONFIGS,
          SKULL_PAN_CHANNEL, SKULL_NOD_CHANNEL, SKULL_JAW_CHANNEL,
          e0, e1, e2, if_false, Bool.false_eq_true]
        rw [if_neg h0, if_neg h1, if_neg h2]

-- ===========================================================================
-- Claim theorems
-- ===========================================================================

/-- C1: `validateServoPosition c p` returns true if and only if the channel
table contains a record for `c` and that record's `min ≤ p ≤ max` (closed
interval); in particular a channel with no record is rejected for every
position. -/
theorem validateServoPosition_iff_in_range (c p : Nat) :
    validateServoPosition c p = true ↔
      ∃ r, r ∈ SERVO_RANGES ∧ r.channel = c ∧ r.min ≤ p ∧ p ≤ r.max := by
  simp only [validateServoPosition, getServoRange_cases]
  by_cases h0 : c = 0
  · subst h0
    simp [SERVO_RANGES, SKULL_PAN_CHANNEL, SKULL_NOD_CHANNEL, SKULL_JAW_CHANNEL,
      PAN_LEFT, PAN_RIGHT, PAN_CENTER, NOD_UP, NOD_DOWN, NOD_CENTER,
      JAW_CLOSED, JAW_OPEN]
  · by_cases h1 : c = 1
    · subst h1
      simp [SERVO_RANGES, SKULL_PAN_CHANNEL, SKULL_NOD_CHANNEL, SKULL_JAW_CHANNEL,
        PAN_LEFT, PAN_RIGHT, PAN_CENTER, NOD_UP, NOD_DOWN, NOD_CENTER,
        JAW_CLOSED, JAW_OPEN]
    · by_cases h2 : c = 2
      · subst h2
        simp [SERVO_RANGES, SKULL_PAN_CHANNEL, SKULL_NOD_CHANNEL, SKULL_JAW_CHANNEL,
          PAN_LEFT, PAN_RIGHT, PAN_CENTER, NOD_UP, NOD_DOWN, NOD_CENTER,
          JAW_CLOSED, JAW_OPEN]
      · have g0 : (0 : Nat) ≠ c := Ne.symm h0
        have g1 : (1 : Nat) ≠ c := Ne.symm h1
        have g2 : (2 : Nat) ≠ c := Ne.symm h2
        simp [h0, h1, h2, g0, g1, g2, SERVO_RANGES,
          SKULL_PAN_CHANNEL, SKULL_NOD_CHANNEL, SKULL_JAW_CHANNEL,
          PAN_LEFT, PAN_RIGHT, PAN_CENTER, NOD_UP, NOD_DOWN, NOD_CENTER,
          JAW_CLOSED, JAW_OPEN]

/-- C2: every record of `SERVO_RANGES` satisfies `min ≤ home ≤ max`
(table self-consistency of the pan, nod and jaw entries). -/
theorem servoRanges_home_within_bounds :
    ∀ r ∈ SERVO_RANGES, r.min ≤ r.home ∧ r.home ≤ r.max := by decide

/-- Witness for C2 at the pan entry of `SERVO_RANGES`. -/
theorem servoRanges_home_within_bounds_witness :
    (⟨0, 4416, 7232, 6000⟩ : ServoRange) ∈ SERVO_RANGES ∧
      ((4416 : Nat) ≤ 6000 ∧ (6000 : Nat) ≤ 7232) :=
  ⟨by decide, servoRanges_home_within_bounds ⟨0, 4416, 7232, 6000⟩ (by decide)⟩

/-- C3: for every record of `SERVO_RANGES` (whose `min` is positive and
whose `max` is below the uint16 maximum, so no wraparound occurs),
`validateServoPosition` accepts both endpoints and rejects the positions
one below `min` and one above `max`. -/
theorem validateServoPosition_boundary :
    ∀ r ∈ SERVO_RANGES, 0 < r.min → r.max < 65535 →
      validateServoPosition r.channel r.min = true ∧
      validateServoPosition r.channel r.max = true ∧
      validateServoPosition r.channel (r.min - 1) = false ∧
      validateServoPosition r.channel (r.max + 1) = false := by decide

/-- Witness for C3 at the pan entry of `SERVO_RANGES`. -/
theorem validateServoPosition_boundary_witness :
    (⟨0, 4416, 7232, 6000⟩ : ServoRange) ∈ SERVO_RANGES ∧ 0 < 4416 ∧ 7232 < 65535 ∧
      (validateServoPosition 0 4416 = true ∧
       validateServoPosition 0 7232 = true ∧
       validateServoPosition 0 4415 = false ∧
       validateServoPosition 0 7233 = false) :=
  ⟨by decide, by decide, by decide,
    validateServoPosition_boundary ⟨0, 4416, 7232, 6000⟩ (by decide) (by decide) (by decide)⟩

/-- C4: `validateEyePosition h v` is true iff `-60 ≤ h ≤ 60` and
`-30 ≤ v ≤ 30` hold simultaneously; in particular `(60, 30)` and
`(-60, -30)` are accepted while `(61, 0)` and `(0, 31)` are rejected. -/
theorem validateEyePosition_iff_bounds :
    (∀ ho vo : Int, validateEyePosition ho vo = true ↔
        (-60 ≤ ho ∧ ho ≤ 60 ∧ -30 ≤ vo ∧ vo ≤ 30)) ∧
      validateEyePosition 60 30 = true ∧
      validateEyePosition (-60) (-30) = true ∧
      validateEyePosition 61 0 = false ∧
      validateEyePosition 0 31 = false := by
  refine ⟨?_, by decide, by decide, by decide, by decide⟩
  intro ho vo
  simp [validateEyePosition, and_assoc]

/-- C5: `validateTiming ms` is true iff `10 ≤ ms ≤ 30000`; in particular
`10` and `30000` are accepted while `9` and `30001` are rejected. -/
theorem validateTiming_iff_bounds :
    (∀ ms : Nat, validateTiming ms = true ↔ (10 ≤ ms ∧ ms ≤ 30000)) ∧
      validateTiming 10 = true ∧ validateTiming 30000 = true ∧
      validateTiming 9 = false ∧ validateTiming 30001 = false := by
  refine ⟨?_, by decide, by decide, by decide, by decide⟩
  intro ms
  simp [validateTiming]

/-- C6: both movement envelopes (`DEFAULT_DYNAMIC_CONFIG` and
`TALKING_DYNAMIC_CONFIG`) have ordered, positive movement-interval bounds,
ordered, positive hold-duration bounds, and an intensity within `[0, 1]`. -/
theorem dynamicConfigs_envelope_invariants :
    (DEFAULT_DYNAMIC_CONFIG.minMovementInterval ≤ DEFAULT_DYNAMIC_CONFIG.maxMovementInterval ∧
     0 < DEFAULT_DYNAMIC_CONFIG.minMovementInterval ∧
     0 < DEFAULT_DYNAMIC_CONFIG.maxMovementInterval ∧
     DEFAULT_DYNAMIC_CONFIG.minHoldDuration ≤ DEFAULT_DYNAMIC_CONFIG.maxHoldDuration ∧
     0 < DEFAULT_DYNAMIC_CONFIG.minHoldDuration ∧
     0 < DEFAULT_DYNAMIC_CONFIG.maxHoldDuration ∧
     0 ≤ DEFAULT_DYNAMIC_CONFIG.movementIntensity ∧
     DEFAULT_DYNAMIC_CONFIG.movementIntensity ≤ 1) ∧
    (TALKING_DYNAMIC_CONFIG.minMovementInterval ≤ TALKING_DYNAMIC_CONFIG.maxMovementInterval ∧
     0 < TALKING_DYNAMIC_CONFIG.minMovementInterval ∧
     0 < TALKING_DYNAMIC_CONFIG.maxMovementInterval ∧
     TALKING_DYNAMIC_CONFIG.minHoldDuration ≤ TALKING_DYNAMIC_CONFIG.maxHoldDuration ∧
     0 < TALKING_DYNAMIC_CONFIG.minHoldDuration ∧
     0 < TALKING_DYNAMIC_CONFIG.maxHoldDuration ∧
     0 ≤ TALKING_DYNAMIC_CONFIG.movementIntensity ∧
     TALKING_DYNAMIC_CONFIG.movementIntensity ≤ 1) := by
  norm_num [DEFAULT_DYNAMIC_CONFIG, TALKING_DYNAMIC_CONFIG]

/-- C7: both lookups are linear first-match scans of their fixed tables,
returning the first record whose channel field equals the query, and an
explicit not-found result (`none`) exactly when no record matches — for
every identifier value the lookup completes with no silent default. -/
theorem lookups_first_match_or_none (c : Nat) :
    getServoRange c = SERVO_RANGES.find? (fun r => r.channel == c) ∧
    getServoMotionConfig c = SERVO_MOTION_CONFIGS.find? (fun r => r.channel == c) ∧
    (getServoRange c = none ↔ ∀ r ∈ SERVO_RANGES, r.channel ≠ c) ∧
    (getServoMotionConfig c = none ↔ ∀ r ∈ SERVO_MOTION_CONFIGS, r.channel ≠ c) := by
  refine ⟨scanRanges_eq_find c _, scanMotionConfigs_eq_find c _, ?_, ?_⟩
  · rw [getServoRange, scanRanges_eq_find, List.find?_eq_none]
    simp
  · rw [getServoMotionConfig, scanMotionConfigs_eq_find, List.find?_eq_none]
    simp

/-- C8: every timing constant of the configuration core — the talk segment
and pause duration bounds, the default eye-animation and blink durations,
and the movement-interval and hold-duration bounds of both movement
envelopes — passes the single global `validateTiming` check. -/
theorem timing_constants_all_valid :
    validateTiming TALK_SEGMENT_DURATION_MIN_MS = true ∧
    validateTiming TALK_SEGMENT_DURATION_MAX_MS = true ∧
    validateTiming TALK_PAUSE_DURATION_MIN_MS = true ∧
    validateTiming TALK_PAUSE_DURATION_MAX_MS = true ∧
    validateTiming DEFAULT_EYE_ANIMATION_DURATION = true ∧
    validateTiming DEFAULT_BLINK_CLOSE_DURATION = true ∧
    validateTiming DEFAULT_BLINK_PAUSE_DURATION = true ∧
    validateTiming DEFAULT_BLINK_OPEN_DURATION = true ∧
    validateTiming DEFAULT_DYNAMIC_CONFIG.minMovementInterval = true ∧
    validateTiming DEFAULT_DYNAMIC_CONFIG.maxMovementInterval = true ∧
    validateTiming DEFAULT_DYNAMIC_CONFIG.minHoldDuration = true ∧
    validateTiming DEFAULT_DYNAMIC_CONFIG.maxHoldDuration = true ∧
    validateTiming TALKING_DYNAMIC_CONFIG.minMovementInterval = true ∧
    validateTiming TALKING_DYNAMIC_CONFIG.maxMovementInterval = true ∧
    validateTiming TALKING_DYNAMIC_CONFIG.minHoldDuration = true ∧
    validateTiming TALKING_DYNAMIC_CONFIG.maxHoldDuration = true := by
  decide

/-- C9: channel identifiers are unique within each table: no two entries of
`SERVO_RANGES` share a channel and no two entries of `SERVO_MOTION_CONFIGS`
share a channel. -/
theorem channel_ids_unique_per_table :
    (SERVO_RANGES.map ServoRange.channel).Nodup ∧
    (SERVO_MOTION_CONFIGS.map ServoMotionConfig.channel).Nodup := by
  decide

/-- C10: the range table and the motion-profile table register the same
channel set: `getServoRange c` succeeds iff `getServoMotionConfig c` does,
and both succeed exactly for channels 0, 1 and 2 (pan, nod, jaw), returning
not-found for every other identifier. -/
theorem range_and_motion_tables_same_channels (c : Nat) :
    ((getServoRange c).isSome = (getServoMotionConfig c).isSome) ∧
    ((getServoRange c).isSome = true ↔ (c = 0 ∨ c = 1 ∨ c = 2)) ∧
    ((getServoMotionConfig c).isSome = true ↔ (c = 0 ∨ c = 1 ∨ c = 2)) := by
  rw [getServoRange_cases, getServoMotionConfig_cases]
  by_cases h0 : c = 0 <;> by_cases h1 : c = 1 <;> by_cases h2 : c = 2 <;>
    simp [h0, h1, h2]

end IndianaBones
